import Mathlib

/-!
Shallow embedding of `controller/client/monitor_client.go`: a metrics
facade that wraps a `client.Client`, its `client.StatusWriter` and a
`cache.Cache`, timing every call and recording one histogram observation
per call.

Modelling choices:
* Wall-clock time is modelled as `Int` (abstract time units).  Each facade
  method takes the clock value `t0` at entry; the wrapped call reports the
  time `elapsed` it consumed, so the deferred callback runs at
  `t0 + elapsed`.
* A Go call receives the object argument as an interface value holding a
  pointer: the wrapped call can mutate the pointee (in particular its
  group/version/kind metadata) but can never change the dynamic type of
  the argument.  A `CallOutcome` therefore carries the metadata the
  wrapped call leaves behind (`newGvk`), while the type-level facts
  (`isList`, `isUnstructured`) of the object are immutable.
* `defer cb()` is modelled by having every facade method emit the
  observation produced by running the `monitor` closure body at exit
  time, on the object state the wrapped call left behind — exactly the
  values the Go closure reads when it finally runs.
-/

/-- Group, version and kind metadata of an object (`schema.GroupVersionKind`). -/
structure GroupVersionKind where
  group : String
  version : String
  kind : String
deriving DecidableEq

/-- A runtime object as the facade sees it: mutable type metadata (`gvk`)
plus the immutable shape of its Go dynamic type — whether it is a list
type and whether it is the unstructured (map-backed) representation. -/
structure KObject where
  gvk : GroupVersionKind
  isList : Bool
  isUnstructured : Bool
deriving DecidableEq

/-- Models `schema.GroupVersion.String()` from apimachinery, as the spec
restates it: puts group and version into a single `<group>/<version>`
string; an empty group renders as just the version. -/
def GroupVersionKind.groupVersionString (g : GroupVersionKind) : String :=
  if g.group = "" then g.version else g.group ++ "/" ++ g.version

/-- Models Go `strings.TrimSuffix`: removes the suffix when present,
otherwise returns the string unchanged.  Stated over the character lists
so that it evaluates inside the kernel. -/
def goTrimSuffix (s suffix : String) : String :=
  if suffix.data.isSuffixOf s.data
  then String.mk (s.data.take (s.data.length - suffix.data.length))
  else s

/-- Modelled from the spec: `k8s.GetKindForObject` (package `util/k8s`,
not under src/).  Returns the resource's kind; for a list argument (with
trimming requested) it returns the kind of the contained element type,
not the list wrapper — the wrapper kind with its `List` suffix trimmed. -/
def GetKindForObject (obj : KObject) (trimList : Bool) : String :=
  if trimList && obj.isList then goTrimSuffix obj.gvk.kind "List" else obj.gvk.kind

/-- Modelled from the spec: `k8s.IsUnstructuredObject` (package
`util/k8s`, not under src/).  True iff the object is represented
generically (unstructured) rather than as a statically-typed structure.
In Go this depends only on the dynamic type of the interface value, which
a wrapped call cannot change. -/
def IsUnstructuredObject (obj : KObject) : Bool :=
  obj.isUnstructured

/-- Modelled from the spec: `velaruntime.GetControllerInCaller` (package
`util/runtime`, not under src/) walks the call stack to identify the
calling controller, with a stable sentinel fallback.  The call-stack
context is modelled as an ambient environment supplying that string. -/
structure Env where
  controllerInCaller : String

/-- Models Go `fmt.Sprintf` with verb `%t`: the lowercase rendering of a
boolean. -/
def fmtBool (b : Bool) : String :=
  if b then "true" else "false"

/-- A prometheus histogram vector: metric name, help text and the fixed
ordered label schema.  Bucket boundaries (`metrics.FineGrainedBuckets`,
not under src/) are a property of the vector itself, so two observations
recorded into the same vector are bucketed by the same boundaries. -/
structure HistogramVec where
  name : String
  help : String
  labelNames : List String
deriving DecidableEq

/-- The single package-level histogram vector
`controllerClientRequestLatency` every observation is written into. -/
def controllerClientRequestLatency : HistogramVec :=
  { name := "kubevela_controller_client_request_time_seconds"
    help := "client request duration for kubevela controllers"
    labelNames := ["controller", "verb", "kind", "apiVersion", "unstructured"] }

/-- One recorded duration sample: the vector it is written into, the five
label values in schema order, and the observed duration. -/
structure Observation where
  metric : HistogramVec
  controller : String
  verb : String
  kind : String
  apiVersion : String
  unstructured : String
  durationSeconds : Int
deriving DecidableEq

/-- The label values of an observation, in the order they are passed to
`WithLabelValues`. -/
def Observation.labelValues (o : Observation) : List String :=
  [o.controller, o.verb, o.kind, o.apiVersion, o.unstructured]

/-- The body of the closure returned by `monitor(verb, obj)`.  `begin` is
the clock value captured when `monitor` was called (call entry); `obj` is
the state, at the time the closure runs, of the object the closure holds
a reference to; `now` is the clock when the closure runs.  The label
values are computed here, inside the closure — not when `monitor` was
called. -/
def monitor (env : Env) (verb : String) (begin : Int) (obj : KObject) (now : Int) :
    Observation :=
  { metric := controllerClientRequestLatency
    controller := env.controllerInCaller
    verb := verb
    kind := GetKindForObject obj true
    apiVersion := obj.gvk.groupVersionString
    unstructured := fmtBool (IsUnstructuredObject obj)
    durationSeconds := now - begin }

/-- What one delegated call on the wrapped client/cache does: the type
metadata it leaves on the object it was handed, the error value it
returns, and the wall time it consumes. -/
structure CallOutcome where
  newGvk : GroupVersionKind
  err : Option String
  elapsed : Int
deriving DecidableEq

/-- The state of an object argument after a delegated call: the call may
rewrite the metadata of the pointee but cannot change its dynamic type. -/
def KObject.after (obj : KObject) (oc : CallOutcome) : KObject :=
  { obj with gvk := oc.newGvk }

abbrev Ctx := String
abbrev ObjectKey := String
abbrev PatchSpec := String
abbrev ListOption := String
abbrev CreateOption := String
abbrev DeleteOption := String
abbrev UpdateOption := String
abbrev PatchOption := String
abbrev DeleteAllOfOption := String
abbrev ListOptions := List ListOption
abbrev CreateOptions := List CreateOption
abbrev DeleteOptions := List DeleteOption
abbrev UpdateOptions := List UpdateOption
abbrev PatchOptions := List PatchOption
abbrev DeleteAllOfOptions := List DeleteAllOfOption
abbrev Observations := List Observation

/-- The wrapped `client.StatusWriter`: each operation maps its arguments
to the outcome of the delegated call. -/
structure StatusWriter where
  update : Ctx → KObject → List UpdateOption → CallOutcome
  patch : Ctx → KObject → PatchSpec → List PatchOption → CallOutcome

/-- The wrapped `client.Client`. -/
structure Client where
  get : Ctx → ObjectKey → KObject → CallOutcome
  list : Ctx → KObject → List ListOption → CallOutcome
  create : Ctx → KObject → List CreateOption → CallOutcome
  delete : Ctx → KObject → List DeleteOption → CallOutcome
  update : Ctx → KObject → List UpdateOption → CallOutcome
  patch : Ctx → KObject → PatchSpec → List PatchOption → CallOutcome
  deleteAllOf : Ctx → KObject → List DeleteAllOfOption → CallOutcome
  status : StatusWriter

/-- The wrapped `cache.Cache` (only the two read operations the facade
intercepts). -/
structure Cache where
  get : Ctx → ObjectKey → KObject → CallOutcome
  list : Ctx → KObject → List ListOption → CallOutcome

/-- What one facade call yields: the error returned to the caller, the
state of the object argument when the call returns, and the observations
written to the metrics sink, in order. -/
structure CallResult where
  err : Option String
  obj : KObject
  obs : List Observation
deriving DecidableEq

/-- `monitorClient` wraps an underlying `client.Client`. -/
structure monitorClient where
  Client : Client

/-- `monitorStatusWriter` wraps an underlying `client.StatusWriter`. -/
structure monitorStatusWriter where
  StatusWriter : StatusWriter

/-- `monitorCache` wraps an underlying `cache.Cache`. -/
structure monitorCache where
  Cache : Cache

/-- `monitorCache.Get`: `cb := monitor("GetCache", obj); defer cb();
return c.Cache.Get(ctx, key, obj)`.  The deferred closure runs after the
delegated call, at time `t0 + elapsed`, on the object state the call left. -/
def monitorCache.Get (env : Env) (c : monitorCache) (t0 : Int) (ctx : Ctx)
    (key : ObjectKey) (obj : KObject) : CallResult :=
  let oc := c.Cache.get ctx key obj
  { err := oc.err
    obj := obj.after oc
    obs := [monitor env "GetCache" t0 (obj.after oc) (t0 + oc.elapsed)] }

/-- `monitorCache.List`: `cb := monitor("ListCache", list); defer cb();
return c.Cache.List(ctx, list, opts...)`. -/
def monitorCache.List (env : Env) (c : monitorCache) (t0 : Int) (ctx : Ctx)
    (lst : KObject) (opts : ListOptions) : CallResult :=
  let oc := c.Cache.list ctx lst opts
  { err := oc.err
    obj := lst.after oc
    obs := [monitor env "ListCache" t0 (lst.after oc) (t0 + oc.elapsed)] }

/-- `monitorClient.Get`: `cb := monitor("Get", obj); defer cb();
return c.Client.Get(ctx, key, obj)`. -/
def monitorClient.Get (env : Env) (c : monitorClient) (t0 : Int) (ctx : Ctx)
    (key : ObjectKey) (obj : KObject) : CallResult :=
  let oc := c.Client.get ctx key obj
  { err := oc.err
    obj := obj.after oc
    obs := [monitor env "Get" t0 (obj.after oc) (t0 + oc.elapsed)] }

/-- `monitorClient.List`: `cb := monitor("List", list); defer cb();
return c.Client.List(ctx, list, opts...)`. -/
def monitorClient.List (env : Env) (c : monitorClient) (t0 : Int) (ctx : Ctx)
    (lst : KObject) (opts : ListOptions) : CallResult :=
  let oc := c.Client.list ctx lst opts
  { err := oc.err
    obj := lst.after oc
    obs := [monitor env "List" t0 (lst.after oc) (t0 + oc.elapsed)] }

/-- `monitorClient.Create`: `cb := monitor("Create", obj); defer cb();
return c.Client.Create(ctx, obj, opts...)`. -/
def monitorClient.Create (env : Env) (c : monitorClient) (t0 : Int) (ctx : Ctx)
    (obj : KObject) (opts : CreateOptions) : CallResult :=
  let oc := c.Client.create ctx obj opts
  { err := oc.err
    obj := obj.after oc
    obs := [monitor env "Create" t0 (obj.after oc) (t0 + oc.elapsed)] }

/-- `monitorClient.Delete`: `cb := monitor("Delete", obj); defer cb();
return c.Client.Delete(ctx, obj, opts...)`. -/
def monitorClient.Delete (env : Env) (c : monitorClient) (t0 : Int) (ctx : Ctx)
    (obj : KObject) (opts : DeleteOptions) : CallResult :=
  let oc := c.Client.delete ctx obj opts
  { err := oc.err
    obj := obj.after oc
    obs := [monitor env "Delete" t0 (obj.after oc) (t0 + oc.elapsed)] }

/-- `monitorClient.Update`: `cb := monitor("Update", obj); defer cb();
return c.Client.Update(ctx, obj, opts...)`. -/
def monitorClient.Update (env : Env) (c : monitorClient) (t0 : Int) (ctx : Ctx)
    (obj : KObject) (opts : UpdateOptions) : CallResult :=
  let oc := c.Client.update ctx obj opts
  { err := oc.err
    obj := obj.after oc
    obs := [monitor env "Update" t0 (obj.after oc) (t0 + oc.elapsed)] }

/-- `monitorClient.Patch`: `cb := monitor("Patch", obj); defer cb();
return c.Client.Patch(ctx, obj, patch, opts...)`. -/
def monitorClient.Patch (env : Env) (c : monitorClient) (t0 : Int) (ctx : Ctx)
    (obj : KObject) (p : PatchSpec) (opts : PatchOptions) : CallResult :=
  let oc := c.Client.patch ctx obj p opts
  { err := oc.err
    obj := obj.after oc
    obs := [monitor env "Patch" t0 (obj.after oc) (t0 + oc.elapsed)] }

/-- `monitorClient.DeleteAllOf`: `cb := monitor("DeleteAllOf", obj);
defer cb(); return c.Client.DeleteAllOf(ctx, obj, opts...)`. -/
def monitorClient.DeleteAllOf (env : Env) (c : monitorClient) (t0 : Int) (ctx : Ctx)
    (obj : KObject) (opts : DeleteAllOfOptions) : CallResult :=
  let oc := c.Client.deleteAllOf ctx obj opts
  { err := oc.err
    obj := obj.after oc
    obs := [monitor env "DeleteAllOf" t0 (obj.after oc) (t0 + oc.elapsed)] }

/-- `monitorClient.Status`: `return &monitorStatusWriter{c.Client.Status()}`.
The accessor calls `monitor` nowhere; the empty observation list makes the
absence of any sink write explicit. -/
def monitorClient.Status (c : monitorClient) : monitorStatusWriter × Observations :=
  ({ StatusWriter := c.Client.status }, [])

/-- `monitorStatusWriter.Update`: `cb := monitor("StatusUpdate", obj);
defer cb(); return w.StatusWriter.Update(ctx, obj, opts...)`. -/
def monitorStatusWriter.Update (env : Env) (w : monitorStatusWriter) (t0 : Int)
    (ctx : Ctx) (obj : KObject) (opts : UpdateOptions) : CallResult :=
  let oc := w.StatusWriter.update ctx obj opts
  { err := oc.err
    obj := obj.after oc
    obs := [monitor env "StatusUpdate" t0 (obj.after oc) (t0 + oc.elapsed)] }

/-- `monitorStatusWriter.Patch`: `cb := monitor("StatusPatch", obj);
defer cb(); return w.StatusWriter.Patch(ctx, obj, patch, opts...)`. -/
def monitorStatusWriter.Patch (env : Env) (w : monitorStatusWriter) (t0 : Int)
    (ctx : Ctx) (obj : KObject) (p : PatchSpec) (opts : PatchOptions) : CallResult :=
  let oc := w.StatusWriter.patch ctx obj p opts
  { err := oc.err
    obj := obj.after oc
    obs := [monitor env "StatusPatch" t0 (obj.after oc) (t0 + oc.elapsed)] }

/-- What a caller sees from one call performed directly against the
unwrapped client/cache: the returned error and the object state on
return.  Used to state behavioural transparency of the facade. -/
structure DirectResult where
  err : Option String
  obj : KObject
deriving DecidableEq

/-- Direct (unwrapped) `Get` per the spec's words: performing the same
operation directly against the unwrapped client. -/
def Client.GetDirect (c : Client) (ctx : Ctx) (key : ObjectKey) (obj : KObject) :
    DirectResult :=
  { err := (c.get ctx key obj).err, obj := obj.after (c.get ctx key obj) }

/-- Direct (unwrapped) `List`. -/
def Client.ListDirect (c : Client) (ctx : Ctx) (lst : KObject)
    (opts : ListOptions) : DirectResult :=
  { err := (c.list ctx lst opts).err, obj := lst.after (c.list ctx lst opts) }

/-- Direct (unwrapped) `Create`. -/
def Client.CreateDirect (c : Client) (ctx : Ctx) (obj : KObject)
    (opts : CreateOptions) : DirectResult :=
  { err := (c.create ctx obj opts).err, obj := obj.after (c.create ctx obj opts) }

/-- Direct (unwrapped) `Delete`. -/
def Client.DeleteDirect (c : Client) (ctx : Ctx) (obj : KObject)
    (opts : DeleteOptions) : DirectResult :=
  { err := (c.delete ctx obj opts).err, obj := obj.after (c.delete ctx obj opts) }

/-- Direct (unwrapped) `Update`. -/
def Client.UpdateDirect (c : Client) (ctx : Ctx) (obj : KObject)
    (opts : UpdateOptions) : DirectResult :=
  { err := (c.update ctx obj opts).err, obj := obj.after (c.update ctx obj opts) }

/-- Direct (unwrapped) `Patch`. -/
def Client.PatchDirect (c : Client) (ctx : Ctx) (obj : KObject) (p : PatchSpec)
    (opts : PatchOptions) : DirectResult :=
  { err := (c.patch ctx obj p opts).err, obj := obj.after (c.patch ctx obj p opts) }

/-- Direct (unwrapped) `DeleteAllOf`. -/
def Client.DeleteAllOfDirect (c : Client) (ctx : Ctx) (obj : KObject)
    (opts : DeleteAllOfOptions) : DirectResult :=
  { err := (c.deleteAllOf ctx obj opts).err
    obj := obj.after (c.deleteAllOf ctx obj opts) }

/-- Direct (unwrapped) status `Update`. -/
def StatusWriter.UpdateDirect (w : StatusWriter) (ctx : Ctx) (obj : KObject)
    (opts : UpdateOptions) : DirectResult :=
  { err := (w.update ctx obj opts).err, obj := obj.after (w.update ctx obj opts) }

/-- Direct (unwrapped) status `Patch`. -/
def StatusWriter.PatchDirect (w : StatusWriter) (ctx : Ctx) (obj : KObject)
    (p : PatchSpec) (opts : PatchOptions) : DirectResult :=
  { err := (w.patch ctx obj p opts).err, obj := obj.after (w.patch ctx obj p opts) }

/-- Direct (unwrapped) cache `Get`. -/
def Cache.GetDirect (c : Cache) (ctx : Ctx) (key : ObjectKey) (obj : KObject) :
    DirectResult :=
  { err := (c.get ctx key obj).err, obj := obj.after (c.get ctx key obj) }

/-- Direct (unwrapped) cache `List`. -/
def Cache.ListDirect (c : Cache) (ctx : Ctx) (lst : KObject)
    (opts : ListOptions) : DirectResult :=
  { err := (c.list ctx lst opts).err, obj := lst.after (c.list ctx lst opts) }

/-- A statically-typed single object: a core/v1 Pod. -/
def podObj : KObject :=
  { gvk := { group := "", version := "v1", kind := "Pod" }
    isList := false, isUnstructured := false }

/-- A statically-typed list object: a core/v1 PodList. -/
def podListObj : KObject :=
  { gvk := { group := "", version := "v1", kind := "PodList" }
    isList := true, isUnstructured := false }

/-- An unstructured custom resource with a non-empty group. -/
def unsObj : KObject :=
  { gvk := { group := "example.io", version := "v1", kind := "Foo" }
    isList := false, isUnstructured := true }

/-- A fixed caller environment. -/
def env0 : Env := { controllerInCaller := "application" }

/-- A test double for the wrapped status writer: update conflicts, patch
succeeds; neither rewrites the object's metadata. -/
def sw0 : StatusWriter :=
  { update := fun _ obj _ => { newGvk := obj.gvk, err := some "conflict", elapsed := 3 }
    patch := fun _ obj _ _ => { newGvk := obj.gvk, err := none, elapsed := 4 } }

/-- A test double for the wrapped client: reads and writes succeed except
`update`, which returns a conflict error; no call rewrites metadata. -/
def cl0 : Client :=
  { get := fun _ _ obj => { newGvk := obj.gvk, err := none, elapsed := 2 }
    list := fun _ lst _ => { newGvk := lst.gvk, err := none, elapsed := 6 }
    create := fun _ obj _ => { newGvk := obj.gvk, err := none, elapsed := 1 }
    delete := fun _ obj _ => { newGvk := obj.gvk, err := none, elapsed := 1 }
    update := fun _ obj _ => { newGvk := obj.gvk, err := some "conflict", elapsed := 5 }
    patch := fun _ obj _ _ => { newGvk := obj.gvk, err := none, elapsed := 1 }
    deleteAllOf := fun _ obj _ => { newGvk := obj.gvk, err := none, elapsed := 1 }
    status := sw0 }

/-- A test double for the wrapped cache. -/
def ca0 : Cache :=
  { get := fun _ _ obj => { newGvk := obj.gvk, err := none, elapsed := 1 }
    list := fun _ lst _ => { newGvk := lst.gvk, err := none, elapsed := 1 } }

/-- The instrumented client over `cl0`. -/
def mc0 : monitorClient := { Client := cl0 }

/-- The instrumented cache over `ca0`. -/
def mca0 : monitorCache := { Cache := ca0 }

/-- The instrumented status writer over `sw0`. -/
def msw0 : monitorStatusWriter := { StatusWriter := sw0 }

/-- A wrapped client whose `Get` rewrites the object's type metadata to
apps/v2 Deployment (as a live `Get` filling in TypeMeta would). -/
def mcMut : monitorClient :=
  { Client :=
      { cl0 with
          get := fun _ _ _ =>
            { newGvk := { group := "apps", version := "v2", kind := "Deployment" }
              err := none, elapsed := 1 } } }

/-- The single observation a facade call emits is well-formed: there is
exactly one of it and, when the wrapped call consumed a nonnegative
amount of time, its recorded duration is nonnegative. -/
theorem monitor_obs_ok (env : Env) (verb : String) (t0 : Int) (obj : KObject)
    (oc : CallOutcome) (h : 0 ≤ oc.elapsed) :
    ([monitor env verb t0 (obj.after oc) (t0 + oc.elapsed)] : List Observation).length = 1 ∧
    ∀ o ∈ [monitor env verb t0 (obj.after oc) (t0 + oc.elapsed)], 0 ≤ o.durationSeconds := by
  refine ⟨rfl, fun o ho => ?_⟩
  rw [List.mem_singleton.mp ho]
  show (0 : Int) ≤ t0 + oc.elapsed - t0
  omega

/-- Any observation in the singleton list a facade call emits was built by
`monitor`, hence is written into the single shared histogram vector with a
full label tuple. -/
theorem obs_metric_of_mem {o : Observation} {env : Env} {verb : String}
    {b : Int} {obj : KObject} {n : Int} (ho : o ∈ [monitor env verb b obj n]) :
    o.metric = controllerClientRequestLatency ∧
    o.labelValues.length = controllerClientRequestLatency.labelNames.length := by
  rw [List.mem_singleton.mp ho]
  exact ⟨rfl, rfl⟩

/-- C1: for every operation exposed by the instrumented client, status
writer and cache (Get, List, Create, Delete, Update, Patch, DeleteAllOf,
Status Update, Status Patch, cache Get, cache List) and every input, the
error and the object state returned to the caller are exactly those of
the same operation performed directly against the unwrapped client/cache
with the same arguments: the facade never alters, swallows, wraps or
translates results or errors. -/
theorem facade_forwards_results_unchanged (env : Env) (c : monitorClient)
    (ca : monitorCache) (w : monitorStatusWriter) (t0 : Int) (ctx : Ctx)
    (key : ObjectKey) (obj lst : KObject) (p : PatchSpec) (lo : ListOptions)
    (co : CreateOptions) (dopts : DeleteOptions) (uo : UpdateOptions)
    (po : PatchOptions) (dao : DeleteAllOfOptions) :
    ((monitorClient.Get env c t0 ctx key obj).err = (c.Client.GetDirect ctx key obj).err
      ∧ (monitorClient.Get env c t0 ctx key obj).obj = (c.Client.GetDirect ctx key obj).obj)
  ∧ ((monitorClient.List env c t0 ctx lst lo).err = (c.Client.ListDirect ctx lst lo).err
      ∧ (monitorClient.List env c t0 ctx lst lo).obj = (c.Client.ListDirect ctx lst lo).obj)
  ∧ ((monitorClient.Create env c t0 ctx obj co).err = (c.Client.CreateDirect ctx obj co).err
      ∧ (monitorClient.Create env c t0 ctx obj co).obj = (c.Client.CreateDirect ctx obj co).obj)
  ∧ ((monitorClient.Delete env c t0 ctx obj dopts).err = (c.Client.DeleteDirect ctx obj dopts).err
      ∧ (monitorClient.Delete env c t0 ctx obj dopts).obj = (c.Client.DeleteDirect ctx obj dopts).obj)
  ∧ ((monitorClient.Update env c t0 ctx obj uo).err = (c.Client.UpdateDirect ctx obj uo).err
      ∧ (monitorClient.Update env c t0 ctx obj uo).obj = (c.Client.UpdateDirect ctx obj uo).obj)
  ∧ ((monitorClient.Patch env c t0 ctx obj p po).err = (c.Client.PatchDirect ctx obj p po).err
      ∧ (monitorClient.Patch env c t0 ctx obj p po).obj = (c.Client.PatchDirect ctx obj p po).obj)
  ∧ ((monitorClient.DeleteAllOf env c t0 ctx obj dao).err = (c.Client.DeleteAllOfDirect ctx obj dao).err
      ∧ (monitorClient.DeleteAllOf env c t0 ctx obj dao).obj = (c.Client.DeleteAllOfDirect ctx obj dao).obj)
  ∧ ((monitorStatusWriter.Update env w t0 ctx obj uo).err = (w.StatusWriter.UpdateDirect ctx obj uo).err
      ∧ (monitorStatusWriter.Update env w t0 ctx obj uo).obj = (w.StatusWriter.UpdateDirect ctx obj uo).obj)
  ∧ ((monitorStatusWriter.Patch env w t0 ctx obj p po).err = (w.StatusWriter.PatchDirect ctx obj p po).err
      ∧ (monitorStatusWriter.Patch env w t0 ctx obj p po).obj = (w.StatusWriter.PatchDirect ctx obj p po).obj)
  ∧ ((monitorCache.Get env ca t0 ctx key obj).err = (ca.Cache.GetDirect ctx key obj).err
      ∧ (monitorCache.Get env ca t0 ctx key obj).obj = (ca.Cache.GetDirect ctx key obj).obj)
  ∧ ((monitorCache.List env ca t0 ctx lst lo).err = (ca.Cache.ListDirect ctx lst lo).err
      ∧ (monitorCache.List env ca t0 ctx lst lo).obj = (ca.Cache.ListDirect ctx lst lo).obj) :=
  ⟨⟨rfl, rfl⟩, ⟨rfl, rfl⟩, ⟨rfl, rfl⟩, ⟨rfl, rfl⟩, ⟨rfl, rfl⟩, ⟨rfl, rfl⟩,
   ⟨rfl, rfl⟩, ⟨rfl, rfl⟩, ⟨rfl, rfl⟩, ⟨rfl, rfl⟩, ⟨rfl, rfl⟩⟩

/-- C2: every intercepted call that completes — with or without an error
from the wrapped call — emits exactly one observation, and when the
wrapped call consumed a nonnegative amount of wall time (the monotonic
clock guarantee) its recorded duration is nonnegative. -/
theorem one_observation_per_call (env : Env) (c : monitorClient)
    (ca : monitorCache) (w : monitorStatusWriter) (t0 : Int) (ctx : Ctx)
    (key : ObjectKey) (obj lst : KObject) (p : PatchSpec) (lo : ListOptions)
    (co : CreateOptions) (dopts : DeleteOptions) (uo : UpdateOptions)
    (po : PatchOptions) (dao : DeleteAllOfOptions) :
    (0 ≤ (c.Client.get ctx key obj).elapsed →
      (monitorClient.Get env c t0 ctx key obj).obs.length = 1 ∧
      ∀ o ∈ (monitorClient.Get env c t0 ctx key obj).obs, 0 ≤ o.durationSeconds)
  ∧ (0 ≤ (c.Client.list ctx lst lo).elapsed →
      (monitorClient.List env c t0 ctx lst lo).obs.length = 1 ∧
      ∀ o ∈ (monitorClient.List env c t0 ctx lst lo).obs, 0 ≤ o.durationSeconds)
  ∧ (0 ≤ (c.Client.create ctx obj co).elapsed →
      (monitorClient.Create env c t0 ctx obj co).obs.length = 1 ∧
      ∀ o ∈ (monitorClient.Create env c t0 ctx obj co).obs, 0 ≤ o.durationSeconds)
  ∧ (0 ≤ (c.Client.delete ctx obj dopts).elapsed →
      (monitorClient.Delete env c t0 ctx obj dopts).obs.length = 1 ∧
      ∀ o ∈ (monitorClient.Delete env c t0 ctx obj dopts).obs, 0 ≤ o.durationSeconds)
  ∧ (0 ≤ (c.Client.update ctx obj uo).elapsed →
      (monitorClient.Update env c t0 ctx obj uo).obs.length = 1 ∧
      ∀ o ∈ (monitorClient.Update env c t0 ctx obj uo).obs, 0 ≤ o.durationSeconds)
  ∧ (0 ≤ (c.Client.patch ctx obj p po).elapsed →
      (monitorClient.Patch env c t0 ctx obj p po).obs.length = 1 ∧
      ∀ o ∈ (monitorClient.Patch env c t0 ctx obj p po).obs, 0 ≤ o.durationSeconds)
  ∧ (0 ≤ (c.Client.deleteAllOf ctx obj dao).elapsed →
      (monitorClient.DeleteAllOf env c t0 ctx obj dao).obs.length = 1 ∧
      ∀ o ∈ (monitorClient.DeleteAllOf env c t0 ctx obj dao).obs, 0 ≤ o.durationSeconds)
  ∧ (0 ≤ (w.StatusWriter.update ctx obj uo).elapsed →
      (monitorStatusWriter.Update env w t0 ctx obj uo).obs.length = 1 ∧
      ∀ o ∈ (monitorStatusWriter.Update env w t0 ctx obj uo).obs, 0 ≤ o.durationSeconds)
  ∧ (0 ≤ (w.StatusWriter.patch ctx obj p po).elapsed →
      (monitorStatusWriter.Patch env w t0 ctx obj p po).obs.length = 1 ∧
      ∀ o ∈ (monitorStatusWriter.Patch env w t0 ctx obj p po).obs, 0 ≤ o.durationSeconds)
  ∧ (0 ≤ (ca.Cache.get ctx key obj).elapsed →
      (monitorCache.Get env ca t0 ctx key obj).obs.length = 1 ∧
      ∀ o ∈ (monitorCache.Get env ca t0 ctx key obj).obs, 0 ≤ o.durationSeconds)
  ∧ (0 ≤ (ca.Cache.list ctx lst lo).elapsed →
      (monitorCache.List env ca t0 ctx lst lo).obs.length = 1 ∧
      ∀ o ∈ (monitorCache.List env ca t0 ctx lst lo).obs, 0 ≤ o.durationSeconds) :=
  ⟨fun h => monitor_obs_ok env "Get" t0 obj (c.Client.get ctx key obj) h,
   fun h => monitor_obs_ok env "List" t0 lst (c.Client.list ctx lst lo) h,
   fun h => monitor_obs_ok env "Create" t0 obj (c.Client.create ctx obj co) h,
   fun h => monitor_obs_ok env "Delete" t0 obj (c.Client.delete ctx obj dopts) h,
   fun h => monitor_obs_ok env "Update" t0 obj (c.Client.update ctx obj uo) h,
   fun h => monitor_obs_ok env "Patch" t0 obj (c.Client.patch ctx obj p po) h,
   fun h => monitor_obs_ok env "DeleteAllOf" t0 obj (c.Client.deleteAllOf ctx obj dao) h,
   fun h => monitor_obs_ok env "StatusUpdate" t0 obj (w.StatusWriter.update ctx obj uo) h,
   fun h => monitor_obs_ok env "StatusPatch" t0 obj (w.StatusWriter.patch ctx obj p po) h,
   fun h => monitor_obs_ok env "GetCache" t0 obj (ca.Cache.get ctx key obj) h,
   fun h => monitor_obs_ok env "ListCache" t0 lst (ca.Cache.list ctx lst lo) h⟩

/-- C2 witness: on the test doubles, a successful Get and a conflicting
Update each emit exactly one observation with nonnegative duration; the
Update error is still the wrapped one. -/
theorem one_observation_per_call_witness :
    ((monitorClient.Get env0 mc0 100 "c" "ns/p" podObj).obs.length = 1 ∧
      ∀ o ∈ (monitorClient.Get env0 mc0 100 "c" "ns/p" podObj).obs, 0 ≤ o.durationSeconds)
  ∧ ((monitorClient.Update env0 mc0 100 "c" podObj []).obs.length = 1 ∧
      ∀ o ∈ (monitorClient.Update env0 mc0 100 "c" podObj []).obs, 0 ≤ o.durationSeconds) :=
  ⟨(one_observation_per_call env0 mc0 mca0 msw0 100 "c" "ns/p" podObj podListObj
      "p" [] [] [] [] [] []).1 (by decide),
   (one_observation_per_call env0 mc0 mca0 msw0 100 "c" "ns/p" podObj podListObj
      "p" [] [] [] [] [] []).2.2.2.2.1 (by decide)⟩

/-- C3 counterexample: a Get whose wrapped call rewrites the object's type
metadata from core/v1 Pod to apps/v2 Deployment.  The recorded kind and
api_version labels are the post-call values ("Deployment", "apps/v2"), not
the values derived from the object at entry ("Pod", "v1"): the label tuple
is resolved when the deferred callback runs, so mutations the delegated
call makes to the object do change the recorded labels, refuting the
claimed eager, entry-time resolution. -/
theorem labels_reflect_mutation_cex :
    (monitorClient.Get env0 mcMut 0 "c" "ns/p" podObj).obs.map Observation.apiVersion = ["apps/v2"]
  ∧ podObj.gvk.groupVersionString = "v1"
  ∧ (monitorClient.Get env0 mcMut 0 "c" "ns/p" podObj).obs.map Observation.kind = ["Deployment"]
  ∧ GetKindForObject podObj true = "Pod"
  ∧ ("apps/v2" : String) ≠ "v1" ∧ ("Deployment" : String) ≠ "Pod" := by
  decide

/-- C3 amended: `monitor` captures the clock value, the verb string and a
reference to the object at entry, but resolves the label tuple only when
the completion callback runs, after the delegated call: the recorded
duration spans entry to exit, kind and api_version are derived from the
object state the delegated call left behind, and only the is_dynamic
label is immune to mutation (it depends on the object's immutable dynamic
type alone). -/
theorem monitor_resolves_labels_at_completion (env : Env) (c : monitorClient)
    (t0 : Int) (ctx : Ctx) (key : ObjectKey) (obj : KObject) :
    (monitorClient.Get env c t0 ctx key obj).obs.map Observation.durationSeconds
      = [(c.Client.get ctx key obj).elapsed]
  ∧ (monitorClient.Get env c t0 ctx key obj).obs.map Observation.verb = ["Get"]
  ∧ (monitorClient.Get env c t0 ctx key obj).obs.map Observation.kind
      = [GetKindForObject (obj.after (c.Client.get ctx key obj)) true]
  ∧ (monitorClient.Get env c t0 ctx key obj).obs.map Observation.apiVersion
      = [(obj.after (c.Client.get ctx key obj)).gvk.groupVersionString]
  ∧ (monitorClient.Get env c t0 ctx key obj).obs.map Observation.unstructured
      = [fmtBool (IsUnstructuredObject obj)] := by
  refine ⟨?_, rfl, rfl, rfl, rfl⟩
  show [t0 + (c.Client.get ctx key obj).elapsed - t0] = _
  rw [add_sub_cancel_left]

/-- C4: each intercepted operation records its observation under that
operation's fixed verb name: Get, List, Create, Delete, Update, Patch and
DeleteAllOf for the client, StatusUpdate and StatusPatch for the status
sub-resource writer, and GetCache and ListCache for the cache, so status
and cache calls are distinguished from primary live-client calls. -/
theorem fixed_verb_per_operation (env : Env) (c : monitorClient)
    (ca : monitorCache) (w : monitorStatusWriter) (t0 : Int) (ctx : Ctx)
    (key : ObjectKey) (obj lst : KObject) (p : PatchSpec) (lo : ListOptions)
    (co : CreateOptions) (dopts : DeleteOptions) (uo : UpdateOptions)
    (po : PatchOptions) (dao : DeleteAllOfOptions) :
    (monitorClient.Get env c t0 ctx key obj).obs.map Observation.verb = ["Get"]
  ∧ (monitorClient.List env c t0 ctx lst lo).obs.map Observation.verb = ["List"]
  ∧ (monitorClient.Create env c t0 ctx obj co).obs.map Observation.verb = ["Create"]
  ∧ (monitorClient.Delete env c t0 ctx obj dopts).obs.map Observation.verb = ["Delete"]
  ∧ (monitorClient.Update env c t0 ctx obj uo).obs.map Observation.verb = ["Update"]
  ∧ (monitorClient.Patch env c t0 ctx obj p po).obs.map Observation.verb = ["Patch"]
  ∧ (monitorClient.DeleteAllOf env c t0 ctx obj dao).obs.map Observation.verb = ["DeleteAllOf"]
  ∧ (monitorStatusWriter.Update env w t0 ctx obj uo).obs.map Observation.verb = ["StatusUpdate"]
  ∧ (monitorStatusWriter.Patch env w t0 ctx obj p po).obs.map Observation.verb = ["StatusPatch"]
  ∧ (monitorCache.Get env ca t0 ctx key obj).obs.map Observation.verb = ["GetCache"]
  ∧ (monitorCache.List env ca t0 ctx lst lo).obs.map Observation.verb = ["ListCache"] :=
  ⟨rfl, rfl, rfl, rfl, rfl, rfl, rfl, rfl, rfl, rfl, rfl⟩

/-- C5: the Status accessor records no observation itself — its
observation output is empty — and returns a new instrumented status
writer wrapping exactly the underlying client's status writer, whose
subsequent Update and Patch calls are each timed individually (one
observation each, under the status verbs). -/
theorem status_accessor_untimed (env : Env) (c : monitorClient) (t0 : Int)
    (ctx : Ctx) (obj : KObject) (p : PatchSpec) (uo : UpdateOptions)
    (po : PatchOptions) :
    (monitorClient.Status c).2 = []
  ∧ (monitorClient.Status c).1.StatusWriter = c.Client.status
  ∧ (monitorStatusWriter.Update env (monitorClient.Status c).1 t0 ctx obj uo).obs.length = 1
  ∧ (monitorStatusWriter.Update env (monitorClient.Status c).1 t0 ctx obj uo).obs.map
      Observation.verb = ["StatusUpdate"]
  ∧ (monitorStatusWriter.Patch env (monitorClient.Status c).1 t0 ctx obj p po).obs.length = 1
  ∧ (monitorStatusWriter.Patch env (monitorClient.Status c).1 t0 ctx obj p po).obs.map
      Observation.verb = ["StatusPatch"] :=
  ⟨rfl, rfl, rfl, rfl, rfl, rfl⟩

/-- C6: for a List operation on client or cache, the recorded kind label
is the kind of the contained element type — the wrapper kind with its
`List` suffix removed — and not the kind of the list wrapper itself. -/
theorem list_kind_label_is_element_kind (env : Env) (c : monitorClient)
    (ca : monitorCache) (t0 : Int) (ctx : Ctx) (lst : KObject)
    (lo : ListOptions) (ek : String)
    (hl : lst.isList = true)
    (he : goTrimSuffix (c.Client.list ctx lst lo).newGvk.kind "List" = ek)
    (hne : ek ≠ (c.Client.list ctx lst lo).newGvk.kind)
    (hce : goTrimSuffix (ca.Cache.list ctx lst lo).newGvk.kind "List" = ek)
    (hcne : ek ≠ (ca.Cache.list ctx lst lo).newGvk.kind) :
    ((monitorClient.List env c t0 ctx lst lo).obs.map Observation.kind = [ek]
      ∧ (monitorClient.List env c t0 ctx lst lo).obs.map Observation.kind
          ≠ [(c.Client.list ctx lst lo).newGvk.kind])
  ∧ ((monitorCache.List env ca t0 ctx lst lo).obs.map Observation.kind = [ek]
      ∧ (monitorCache.List env ca t0 ctx lst lo).obs.map Observation.kind
          ≠ [(ca.Cache.list ctx lst lo).newGvk.kind]) := by
  have h1 : (monitorClient.List env c t0 ctx lst lo).obs.map Observation.kind = [ek] := by
    show [GetKindForObject (lst.after (c.Client.list ctx lst lo)) true] = [ek]
    simp [GetKindForObject, KObject.after, hl, he]
  have h2 : (monitorCache.List env ca t0 ctx lst lo).obs.map Observation.kind = [ek] := by
    show [GetKindForObject (lst.after (ca.Cache.list ctx lst lo)) true] = [ek]
    simp [GetKindForObject, KObject.after, hl, hce]
  refine ⟨⟨h1, ?_⟩, h2, ?_⟩
  · rw [h1]
    simp [hne]
  · rw [h2]
    simp [hcne]

/-- C6 witness: listing PodList objects (through the instrumented client
and through the instrumented cache) records kind "Pod", not "PodList". -/
theorem list_kind_label_is_element_kind_witness :
    ((monitorClient.List env0 mc0 0 "c" podListObj []).obs.map Observation.kind = ["Pod"]
      ∧ (monitorClient.List env0 mc0 0 "c" podListObj []).obs.map Observation.kind
          ≠ [(mc0.Client.list "c" podListObj []).newGvk.kind])
  ∧ ((monitorCache.List env0 mca0 0 "c" podListObj []).obs.map Observation.kind = ["Pod"]
      ∧ (monitorCache.List env0 mca0 0 "c" podListObj []).obs.map Observation.kind
          ≠ [(mca0.Cache.list "c" podListObj []).newGvk.kind]) :=
  list_kind_label_is_element_kind env0 mc0 mca0 0 "c" podListObj [] "Pod"
    (by decide) (by decide) (by decide) (by decide) (by decide)

/-- C7: the api_version label is the object's schema group and version
formatted as the single string `<group>/<version>`, and an empty group
renders as just the version with no leading slash; the facade records
exactly this rendering. -/
theorem api_version_label_format (env : Env) (c : monitorClient) (t0 : Int)
    (ctx : Ctx) (key : ObjectKey) (obj : KObject) (g v k : String) :
    (g ≠ "" → GroupVersionKind.groupVersionString ⟨g, v, k⟩ = g ++ "/" ++ v)
  ∧ GroupVersionKind.groupVersionString ⟨"", v, k⟩ = v
  ∧ (monitorClient.Get env c t0 ctx key obj).obs.map Observation.apiVersion
      = [(obj.after (c.Client.get ctx key obj)).gvk.groupVersionString] := by
  refine ⟨fun h => ?_, ?_, rfl⟩
  · show (if g = "" then v else g ++ "/" ++ v) = g ++ "/" ++ v
    rw [if_neg h]
  · show (if ("" : String) = "" then v else "" ++ "/" ++ v) = v
    rw [if_pos rfl]

/-- C7 witness: a non-empty group renders as "apps/v2", an empty group as
just "v1", and a concrete Get records the rendering of the object's
group/version. -/
theorem api_version_label_format_witness :
    GroupVersionKind.groupVersionString ⟨"apps", "v2", "Deployment"⟩ = "apps/v2"
  ∧ GroupVersionKind.groupVersionString ⟨"", "v1", "Pod"⟩ = "v1"
  ∧ (monitorClient.Get env0 mc0 0 "c" "ns/p" podObj).obs.map Observation.apiVersion
      = [(podObj.after (mc0.Client.get "c" "ns/p" podObj)).gvk.groupVersionString] := by
  have h1 := api_version_label_format env0 mc0 0 "c" "ns/p" podObj "apps" "v2" "Deployment"
  have h2 := api_version_label_format env0 mc0 0 "c" "ns/p" podObj "apps" "v1" "Pod"
  exact ⟨(h1.1 (by decide)).trans (by decide), h2.2.1, h1.2.2⟩

/-- C8: label derivation is deterministic for a given (verb, object)
pair: two Get calls through the facade with the same object argument and
the same wrapped client — even started at different clock values —
produce observations with identical kind, api_version and is_dynamic
label values. -/
theorem label_derivation_two_run_determinism (env : Env) (c : monitorClient)
    (t0 t1 : Int) (ctx : Ctx) (key : ObjectKey) (obj : KObject) :
    (monitorClient.Get env c t0 ctx key obj).obs.map Observation.kind
      = (monitorClient.Get env c t1 ctx key obj).obs.map Observation.kind
  ∧ (monitorClient.Get env c t0 ctx key obj).obs.map Observation.apiVersion
      = (monitorClient.Get env c t1 ctx key obj).obs.map Observation.apiVersion
  ∧ (monitorClient.Get env c t0 ctx key obj).obs.map Observation.unstructured
      = (monitorClient.Get env c t1 ctx key obj).obs.map Observation.unstructured :=
  ⟨rfl, rfl, rfl⟩

/-- C9: every observation from every operation of both decorators is
written into the one shared histogram vector
`kubevela_controller_client_request_time_seconds` with the fixed ordered
label schema [controller, verb, kind, apiVersion, unstructured]; live
client and cache calls share the vector (hence its bucket boundaries) and
differ only in label values. -/
theorem single_shared_histogram (env : Env) (c : monitorClient)
    (ca : monitorCache) (w : monitorStatusWriter) (t0 : Int) (ctx : Ctx)
    (key : ObjectKey) (obj lst : KObject) (p : PatchSpec) (lo : ListOptions)
    (co : CreateOptions) (dopts : DeleteOptions) (uo : UpdateOptions)
    (po : PatchOptions) (dao : DeleteAllOfOptions) :
    controllerClientRequestLatency.name = "kubevela_controller_client_request_time_seconds"
  ∧ controllerClientRequestLatency.labelNames
      = ["controller", "verb", "kind", "apiVersion", "unstructured"]
  ∧ (∀ o ∈ (monitorClient.Get env c t0 ctx key obj).obs,
      o.metric = controllerClientRequestLatency ∧
      o.labelValues.length = controllerClientRequestLatency.labelNames.length)
  ∧ (∀ o ∈ (monitorClient.List env c t0 ctx lst lo).obs,
      o.metric = controllerClientRequestLatency ∧
      o.labelValues.length = controllerClientRequestLatency.labelNames.length)
  ∧ (∀ o ∈ (monitorClient.Create env c t0 ctx obj co).obs,
      o.metric = controllerClientRequestLatency ∧
      o.labelValues.length = controllerClientRequestLatency.labelNames.length)
  ∧ (∀ o ∈ (monitorClient.Delete env c t0 ctx obj dopts).obs,
      o.metric = controllerClientRequestLatency ∧
      o.labelValues.length = controllerClientRequestLatency.labelNames.length)
  ∧ (∀ o ∈ (monitorClient.Update env c t0 ctx obj uo).obs,
      o.metric = controllerClientRequestLatency ∧
      o.labelValues.length = controllerClientRequestLatency.labelNames.length)
  ∧ (∀ o ∈ (monitorClient.Patch env c t0 ctx obj p po).obs,
      o.metric = controllerClientRequestLatency ∧
      o.labelValues.length = controllerClientRequestLatency.labelNames.length)
  ∧ (∀ o ∈ (monitorClient.DeleteAllOf env c t0 ctx obj dao).obs,
      o.metric = controllerClientRequestLatency ∧
      o.labelValues.length = controllerClientRequestLatency.labelNames.length)
  ∧ (∀ o ∈ (monitorStatusWriter.Update env w t0 ctx obj uo).obs,
      o.metric = controllerClientRequestLatency ∧
      o.labelValues.length = controllerClientRequestLatency.labelNames.length)
  ∧ (∀ o ∈ (monitorStatusWriter.Patch env w t0 ctx obj p po).obs,
      o.metric = controllerClientRequestLatency ∧
      o.labelValues.length = controllerClientRequestLatency.labelNames.length)
  ∧ (∀ o ∈ (monitorCache.Get env ca t0 ctx key obj).obs,
      o.metric = controllerClientRequestLatency ∧
      o.labelValues.length = controllerClientRequestLatency.labelNames.length)
  ∧ (∀ o ∈ (monitorCache.List env ca t0 ctx lst lo).obs,
      o.metric = controllerClientRequestLatency ∧
      o.labelValues.length = controllerClientRequestLatency.labelNames.length) :=
  ⟨rfl, rfl,
   fun _ ho => obs_metric_of_mem ho, fun _ ho => obs_metric_of_mem ho,
   fun _ ho => obs_metric_of_mem ho, fun _ ho => obs_metric_of_mem ho,
   fun _ ho => obs_metric_of_mem ho, fun _ ho => obs_metric_of_mem ho,
   fun _ ho => obs_metric_of_mem ho, fun _ ho => obs_metric_of_mem ho,
   fun _ ho => obs_metric_of_mem ho, fun _ ho => obs_metric_of_mem ho,
   fun _ ho => obs_metric_of_mem ho⟩

/-- C9 witness: the concrete observation emitted by a Get through the
facade carries the shared histogram vector and a full five-value label
tuple. -/
theorem single_shared_histogram_witness :
    (monitor env0 "Get" 3 (podObj.after (mc0.Client.get "c" "ns/p" podObj))
        (3 + (mc0.Client.get "c" "ns/p" podObj).elapsed)).metric
      = controllerClientRequestLatency
  ∧ (monitor env0 "Get" 3 (podObj.after (mc0.Client.get "c" "ns/p" podObj))
        (3 + (mc0.Client.get "c" "ns/p" podObj).elapsed)).labelValues.length
      = controllerClientRequestLatency.labelNames.length :=
  (single_shared_histogram env0 mc0 mca0 msw0 3 "c" "ns/p" podObj podListObj
    "p" [] [] [] [] [] []).2.2.1 _ (by decide)

/-- C10: the is_dynamic dimension is recorded under the label name
"unstructured" (the fifth label of the schema) as the lowercase rendering
of a boolean: exactly "true" when the object is the unstructured/generic
representation and exactly "false" otherwise, for client and cache
reads alike. -/
theorem unstructured_label_rendering (env : Env) (c : monitorClient)
    (ca : monitorCache) (t0 : Int) (ctx : Ctx) (key : ObjectKey)
    (obj : KObject) :
    (obj.isUnstructured = true →
      (monitorClient.Get env c t0 ctx key obj).obs.map Observation.unstructured = ["true"]
      ∧ (monitorCache.Get env ca t0 ctx key obj).obs.map Observation.unstructured = ["true"])
  ∧ (obj.isUnstructured = false →
      (monitorClient.Get env c t0 ctx key obj).obs.map Observation.unstructured = ["false"]
      ∧ (monitorCache.Get env ca t0 ctx key obj).obs.map Observation.unstructured = ["false"])
  ∧ (monitorClient.Get env c t0 ctx key obj).obs.map Observation.unstructured
      = [fmtBool (IsUnstructuredObject obj)]
  ∧ controllerClientRequestLatency.labelNames.getD 4 "" = "unstructured" := by
  refine ⟨fun h => ⟨?_, ?_⟩, fun h => ⟨?_, ?_⟩, rfl, rfl⟩
  · show [fmtBool obj.isUnstructured] = ["true"]
    rw [h]
    rfl
  · show [fmtBool obj.isUnstructured] = ["true"]
    rw [h]
    rfl
  · show [fmtBool obj.isUnstructured] = ["false"]
    rw [h]
    rfl
  · show [fmtBool obj.isUnstructured] = ["false"]
    rw [h]
    rfl

/-- C10 witness: an unstructured custom resource records "true", a typed
Pod records "false", through both the instrumented client and cache. -/
theorem unstructured_label_rendering_witness :
    ((monitorClient.Get env0 mc0 0 "c" "ns/x" unsObj).obs.map Observation.unstructured = ["true"]
      ∧ (monitorCache.Get env0 mca0 0 "c" "ns/x" unsObj).obs.map Observation.unstructured = ["true"])
  ∧ ((monitorClient.Get env0 mc0 0 "c" "ns/p" podObj).obs.map Observation.unstructured = ["false"]
      ∧ (monitorCache.Get env0 mca0 0 "c" "ns/p" podObj).obs.map Observation.unstructured = ["false"]) :=
  ⟨(unstructured_label_rendering env0 mc0 mca0 0 "c" "ns/x" unsObj).1 (by decide),
   (unstructured_label_rendering env0 mc0 mca0 0 "c" "ns/p" podObj).2.1 (by decide)⟩
